import Mathlib

/-!
# widget/gtk/NativeMenuSupport.cpp

A shallow embedding of the three entry points of
`mozilla::widget::NativeMenuSupport` (GTK backend) and of the calls they make
to their collaborators.

The functions have no data of their own: everything observable about them is
the sequence of calls they make to other components, the arguments of those
calls, and how they finish (normal return, fatal abort, or a member call
through a null pointer, which C++ leaves undefined).  The embedding
therefore runs each function against an environment `Env` that fixes the
answer each collaborator gives when it is asked, and produces the trace of
calls together with the outcome.

Every collaborator is called at most once per invocation and in a fixed order,
so fixing the answers up front loses nothing: any execution against a stateful
world coincides with the execution against the environment made of the
answers given in that execution.
-/

namespace mozilla.widget

/-! ## Values handled by the code -/

/-- C++ pointer to a `T`; `none` is `nullptr`. -/
abbrev Ptr (T : Type) : Type := Option T

/-- Identity of an `nsIWidget` object (on GTK the object is an `nsWindow`). -/
structure nsIWidget where
  id : Nat
  deriving DecidableEq, Repr

/-- Identity of a `dom::Element` object. -/
structure Element where
  id : Nat
  deriving DecidableEq, Repr

/-- Identity of the component registered as native menu service. -/
structure nsINativeMenuService where
  id : Nat
  deriving DecidableEq, Repr

/-- Identity of a `DBusMenuBar` object handed out by `DBusMenuBar::Create`. -/
structure DBusMenuBar where
  id : Nat
  deriving DecidableEq, Repr

/-- The `NativeMenu` implementations this file constructs: a `NativeMenuGtk`
object is determined by the element its constructor received. -/
inductive NativeMenu where
  | NativeMenuGtk (aElement : Ptr Element)
  deriving DecidableEq, Repr

/-! ## Calls to collaborators -/

/-- One call made to a collaborator, with its arguments and, where the caller
receives one, its result. -/
inductive Event where
  /-- The call `NS_IsMainThread()`. -/
  | NS_IsMainThread (result : Bool)
  /-- The call `do_GetService(contractID)`. -/
  | do_GetService (contractID : String) (result : Ptr nsINativeMenuService)
  /-- The call `nms->CreateNativeMenuBar(aParent, aMenuBarElement)`. -/
  | nms_CreateNativeMenuBar (nms : nsINativeMenuService)
      (aParent : Ptr nsIWidget) (aMenuBarElement : Ptr Element)
  /-- The read `StaticPrefs::widget_gtk_global_menu_enabled()`. -/
  | widget_gtk_global_menu_enabled (result : Bool)
  /-- The call `DBusMenuFunctions::Init()`. -/
  | DBusMenuFunctions_Init (result : Bool)
  /-- The call `DBusMenuBar::Create(aElement)`. -/
  | DBusMenuBar_Create (aElement : Ptr Element) (result : Ptr DBusMenuBar)
  /-- The call `window->SetDBusMenuBar(aDbusMenuBar)` on the window object
  `window`. -/
  | SetDBusMenuBar (window : nsIWidget) (aDbusMenuBar : Ptr DBusMenuBar)
  /-- The construction `new NativeMenuGtk(aElement)`. -/
  | NativeMenuGtk_new (aElement : Ptr Element)
  /-- The call `NativeMenuGtk::CanUse()`. -/
  | NativeMenuGtk_CanUse (result : Bool)
  deriving DecidableEq, Repr

/-- What the collaborators answer during one invocation, and how the file was
compiled. -/
structure Env where
  /-- Whether the preprocessor symbol `MOZ_ENABLE_DBUS` is defined. -/
  MOZ_ENABLE_DBUS : Bool
  /-- Answer of `NS_IsMainThread()`. -/
  NS_IsMainThread : Bool
  /-- Answer of `do_GetService` for each contract ID. -/
  do_GetService : String → Ptr nsINativeMenuService
  /-- Value of the pref `widget.gtk.global-menu.enabled`. -/
  widget_gtk_global_menu_enabled : Bool
  /-- Answer of `DBusMenuFunctions::Init()`. -/
  DBusMenuFunctions_Init : Bool
  /-- Answer of `DBusMenuBar::Create` for each element. -/
  DBusMenuBar_Create : Ptr Element → Ptr DBusMenuBar
  /-- Answer of `NativeMenuGtk::CanUse()`. -/
  NativeMenuGtk_CanUse : Bool

/-! ## Executions -/

/-- How an invocation finishes. -/
inductive Outcome (α : Type) where
  /-- Normal return with a value. -/
  | returned (value : α)
  /-- Fatal abort of the process, with the assertion text. -/
  | aborted (reason : String)
  /-- Undefined behaviour was reached at the named expression: the language
  gives the execution no meaning from there on (in practice a crash). -/
  | undefined (expression : String)
  deriving DecidableEq, Repr

/-- The observable behaviour of one invocation: the calls made, in order, and
the way it finished. -/
structure Run (α : Type) where
  trace : List Event
  outcome : Outcome α
  deriving DecidableEq, Repr

/-- A computation that may call collaborators, may abort and may run into
undefined behaviour. -/
def Exec (α : Type) : Type := Env → Run α

/-- Sequencing: the second computation runs only when the first one returned,
and its calls come after those of the first. -/
def Exec.bind {α β : Type} (m : Exec α) (f : α → Exec β) : Exec β := fun env =>
  match m env with
  | ⟨t, Outcome.returned a⟩ => ⟨t ++ (f a env).trace, (f a env).outcome⟩
  | ⟨t, Outcome.aborted s⟩ => ⟨t, Outcome.aborted s⟩
  | ⟨t, Outcome.undefined s⟩ => ⟨t, Outcome.undefined s⟩

instance : Monad Exec where
  pure a := fun _ => ⟨[], Outcome.returned a⟩
  bind := Exec.bind

/-- Runs a computation against an environment. -/
def Exec.run {α : Type} (m : Exec α) (env : Env) : Run α := m env

/-! ## Collaborators -/

/-- The call `NS_IsMainThread()`. -/
def NS_IsMainThread : Exec Bool := fun env =>
  ⟨[Event.NS_IsMainThread env.NS_IsMainThread], Outcome.returned env.NS_IsMainThread⟩

/-- Modelled from the spec: the macro `MOZ_RELEASE_ASSERT` (mfbt/Assertions.h)
is a hard runtime assertion, a fatal abort when the condition is false and
nothing otherwise. -/
def MOZ_RELEASE_ASSERT (cond : Bool) (explanation : String) : Exec Unit := fun _ =>
  if cond then ⟨[], Outcome.returned ()⟩ else ⟨[], Outcome.aborted explanation⟩

/-- The call `do_GetService(contractID)`. -/
def do_GetService (contractID : String) : Exec (Ptr nsINativeMenuService) := fun env =>
  ⟨[Event.do_GetService contractID (env.do_GetService contractID)],
    Outcome.returned (env.do_GetService contractID)⟩

/-- The call `nms->CreateNativeMenuBar(aParent, aMenuBarElement)`; the caller
ignores the returned status. -/
def nsINativeMenuService.CreateNativeMenuBar (nms : nsINativeMenuService)
    (aParent : Ptr nsIWidget) (aMenuBarElement : Ptr Element) : Exec Unit := fun _ =>
  ⟨[Event.nms_CreateNativeMenuBar nms aParent aMenuBarElement], Outcome.returned ()⟩

/-- Whether the block between `#ifdef MOZ_ENABLE_DBUS` and `#endif` is
compiled in; consulting it makes no call. -/
def MOZ_ENABLE_DBUS : Exec Bool := fun env =>
  ⟨[], Outcome.returned env.MOZ_ENABLE_DBUS⟩

/-- The read `StaticPrefs::widget_gtk_global_menu_enabled()`. -/
def StaticPrefs.widget_gtk_global_menu_enabled : Exec Bool := fun env =>
  ⟨[Event.widget_gtk_global_menu_enabled env.widget_gtk_global_menu_enabled],
    Outcome.returned env.widget_gtk_global_menu_enabled⟩

/-- The call `DBusMenuFunctions::Init()`. -/
def DBusMenuFunctions.Init : Exec Bool := fun env =>
  ⟨[Event.DBusMenuFunctions_Init env.DBusMenuFunctions_Init],
    Outcome.returned env.DBusMenuFunctions_Init⟩

/-- The call `DBusMenuBar::Create(aElement)`. -/
def DBusMenuBar.Create (aElement : Ptr Element) : Exec (Ptr DBusMenuBar) := fun env =>
  ⟨[Event.DBusMenuBar_Create aElement (env.DBusMenuBar_Create aElement)],
    Outcome.returned (env.DBusMenuBar_Create aElement)⟩

/-- The call `static_cast<nsWindow*>(aParent)->SetDBusMenuBar(aDbusMenuBar)`.
The cast keeps the pointer and the source does not test it. Through a pointer
to a window this is a call of that window's `SetDBusMenuBar`. Through a null
pointer no call of any object takes place: a member call on `nullptr` is
undefined behaviour. -/
def nsWindow.SetDBusMenuBar (window : Ptr nsIWidget) (aDbusMenuBar : Ptr DBusMenuBar) :
    Exec Unit := fun _ =>
  match window with
  | some w => ⟨[Event.SetDBusMenuBar w aDbusMenuBar], Outcome.returned ()⟩
  | none => ⟨[], Outcome.undefined "static_cast<nsWindow*>(aParent)->SetDBusMenuBar"⟩

/-- Modelled from the spec: the helper `MakeAndAddRef<NativeMenuGtk>`
(mfbt/RefPtr.h) constructs a new `NativeMenuGtk` from the forwarded argument
and hands back an owning reference to it; allocation does not fail. -/
def MakeAndAddRef_NativeMenuGtk (aElement : Ptr Element) : Exec (Ptr NativeMenu) := fun _ =>
  ⟨[Event.NativeMenuGtk_new aElement], Outcome.returned (some (NativeMenu.NativeMenuGtk aElement))⟩

/-- The call `NativeMenuGtk::CanUse()`. -/
def NativeMenuGtk.CanUse : Exec Bool := fun env =>
  ⟨[Event.NativeMenuGtk_CanUse env.NativeMenuGtk_CanUse],
    Outcome.returned env.NativeMenuGtk_CanUse⟩

/-! ## The three entry points (NativeMenuSupport.cpp, lines 18-47) -/

/-- The contract ID looked up on line 24. -/
def nativeMenuServiceContractID : String := "@mozilla.org/widget/nativemenuservice;1"

/-- The function `NativeMenuSupport::CreateNativeMenuBar`, lines 18-38.
The block under `#ifdef MOZ_ENABLE_DBUS` is the branch taken when the symbol
is defined. The condition `aMenuBarElement && pref() && Init()` evaluates left
to right and stops at the first false operand, which is what the nested
conditionals do. The argument `DBusMenuBar::Create(aMenuBarElement)` is
evaluated before the member call it is passed to. -/
def NativeMenuSupport.CreateNativeMenuBar (aParent : Ptr nsIWidget)
    (aMenuBarElement : Ptr Element) : Exec Unit := do
  let onMainThread ← NS_IsMainThread
  MOZ_RELEASE_ASSERT onMainThread "Attempting to create native menu bar on wrong thread!"
  let nms ← do_GetService "@mozilla.org/widget/nativemenuservice;1"
  match nms with
  | none => return ()
  | some service =>
    service.CreateNativeMenuBar aParent aMenuBarElement
    if (← MOZ_ENABLE_DBUS) then
      if aMenuBarElement.isSome then
        if (← StaticPrefs.widget_gtk_global_menu_enabled) then
          if (← DBusMenuFunctions.Init) then
            let bar ← DBusMenuBar.Create aMenuBarElement
            nsWindow.SetDBusMenuBar aParent bar

/-- The function `NativeMenuSupport::CreateNativeContextMenu`, lines 40-43. -/
def NativeMenuSupport.CreateNativeContextMenu (aPopup : Ptr Element) : Exec (Ptr NativeMenu) :=
  MakeAndAddRef_NativeMenuGtk aPopup

/-- The function `NativeMenuSupport::ShouldUseNativeContextMenus`, lines 45-47. -/
def NativeMenuSupport.ShouldUseNativeContextMenus : Exec Bool :=
  NativeMenuGtk.CanUse

/-! ## Reading a trace -/

/-- Recognises a call of the service's `CreateNativeMenuBar`. -/
def Event.isServiceCall : Event → Bool
  | Event.nms_CreateNativeMenuBar _ _ _ => true
  | _ => false

/-- Recognises a lookup of a service through `do_GetService`. -/
def Event.isServiceLookup : Event → Bool
  | Event.do_GetService _ _ => true
  | _ => false

/-- Recognises a read of the pref `widget.gtk.global-menu.enabled`. -/
def Event.isPrefRead : Event → Bool
  | Event.widget_gtk_global_menu_enabled _ => true
  | _ => false

/-- Recognises a call of `DBusMenuFunctions::Init`. -/
def Event.isDBusInit : Event → Bool
  | Event.DBusMenuFunctions_Init _ => true
  | _ => false

/-- Recognises a call of `DBusMenuBar::Create`. -/
def Event.isDBusMenuBarCreate : Event → Bool
  | Event.DBusMenuBar_Create _ _ => true
  | _ => false

/-- Recognises a call of `SetDBusMenuBar`. -/
def Event.isSetDBusMenuBar : Event → Bool
  | Event.SetDBusMenuBar _ _ => true
  | _ => false

/-- Recognises any call into the DBus global-menu exporter. -/
def Event.isDBus (ev : Event) : Bool :=
  ev.isDBusInit || ev.isDBusMenuBarCreate || ev.isSetDBusMenuBar

/-! ## Concrete inputs -/

/-- A window. -/
def sampleWindow : nsIWidget := ⟨1⟩

/-- A pointer to the window `sampleWindow`, used as parent. -/
def sampleParent : Ptr nsIWidget := some sampleWindow

/-- A menu bar element. -/
def sampleMenuBar : Ptr Element := some ⟨2⟩

/-- A registered native menu service. -/
def sampleService : nsINativeMenuService := ⟨7⟩

/-- A DBus build on the main thread in which every collaborator is present
and agrees: service registered, pref on, DBus initialisation succeeds. -/
def sampleEnv : Env where
  MOZ_ENABLE_DBUS := true
  NS_IsMainThread := true
  do_GetService := fun _ => some sampleService
  widget_gtk_global_menu_enabled := true
  DBusMenuFunctions_Init := true
  DBusMenuBar_Create := fun _ => some ⟨9⟩
  NativeMenuGtk_CanUse := true

/-- As `sampleEnv`, with no native menu service registered. -/
def sampleEnvNoService : Env := { sampleEnv with do_GetService := fun _ => none }

/-- As `sampleEnv`, compiled without `MOZ_ENABLE_DBUS`. -/
def sampleEnvNoDBus : Env := { sampleEnv with MOZ_ENABLE_DBUS := false }

/-- As `sampleEnv`, with the global-menu pref off. -/
def sampleEnvPrefOff : Env := { sampleEnv with widget_gtk_global_menu_enabled := false }

/-! ## Shared lemmas -/

/-- Every execution of `CreateNativeMenuBar`, spelled out. -/
theorem CreateNativeMenuBar_run (env : Env) (aParent : Ptr nsIWidget)
    (aMenuBarElement : Ptr Element) :
    (NativeMenuSupport.CreateNativeMenuBar aParent aMenuBarElement).run env =
      if env.NS_IsMainThread = true then
        match env.do_GetService nativeMenuServiceContractID with
        | none =>
          ⟨[Event.NS_IsMainThread true,
            Event.do_GetService nativeMenuServiceContractID none], Outcome.returned ()⟩
        | some nms =>
          if env.MOZ_ENABLE_DBUS = true ∧ aMenuBarElement.isSome = true then
            if env.widget_gtk_global_menu_enabled = true then
              if env.DBusMenuFunctions_Init = true then
                match aParent with
                | some window =>
                  ⟨[Event.NS_IsMainThread true,
                    Event.do_GetService nativeMenuServiceContractID (some nms)] ++
                    Event.nms_CreateNativeMenuBar nms aParent aMenuBarElement ::
                    [Event.widget_gtk_global_menu_enabled true,
                     Event.DBusMenuFunctions_Init true,
                     Event.DBusMenuBar_Create aMenuBarElement
                       (env.DBusMenuBar_Create aMenuBarElement),
                     Event.SetDBusMenuBar window (env.DBusMenuBar_Create aMenuBarElement)],
                   Outcome.returned ()⟩
                | none =>
                  ⟨[Event.NS_IsMainThread true,
                    Event.do_GetService nativeMenuServiceContractID (some nms)] ++
                    Event.nms_CreateNativeMenuBar nms aParent aMenuBarElement ::
                    [Event.widget_gtk_global_menu_enabled true,
                     Event.DBusMenuFunctions_Init true,
                     Event.DBusMenuBar_Create aMenuBarElement
                       (env.DBusMenuBar_Create aMenuBarElement)],
                   Outcome.undefined "static_cast<nsWindow*>(aParent)->SetDBusMenuBar"⟩
              else
                ⟨[Event.NS_IsMainThread true,
                  Event.do_GetService nativeMenuServiceContractID (some nms)] ++
                  Event.nms_CreateNativeMenuBar nms aParent aMenuBarElement ::
                  [Event.widget_gtk_global_menu_enabled true,
                   Event.DBusMenuFunctions_Init false],
                 Outcome.returned ()⟩
            else
              ⟨[Event.NS_IsMainThread true,
                Event.do_GetService nativeMenuServiceContractID (some nms)] ++
                Event.nms_CreateNativeMenuBar nms aParent aMenuBarElement ::
                [Event.widget_gtk_global_menu_enabled false],
               Outcome.returned ()⟩
          else
            ⟨[Event.NS_IsMainThread true,
              Event.do_GetService nativeMenuServiceContractID (some nms)] ++
              Event.nms_CreateNativeMenuBar nms aParent aMenuBarElement :: [],
             Outcome.returned ()⟩
      else
        ⟨[Event.NS_IsMainThread false],
          Outcome.aborted "Attempting to create native menu bar on wrong thread!"⟩ := by
  cases h1 : env.NS_IsMainThread <;>
    cases h2 : env.do_GetService nativeMenuServiceContractID <;>
    cases h3 : env.MOZ_ENABLE_DBUS <;> cases aMenuBarElement <;> cases aParent <;>
    cases h4 : env.widget_gtk_global_menu_enabled <;>
    cases h5 : env.DBusMenuFunctions_Init <;>
    simp [nativeMenuServiceContractID] at h2 <;>
    simp [NativeMenuSupport.CreateNativeMenuBar, Exec.run, bind, Exec.bind, pure, NS_IsMainThread,
      MOZ_RELEASE_ASSERT, do_GetService, nsINativeMenuService.CreateNativeMenuBar, MOZ_ENABLE_DBUS,
      StaticPrefs.widget_gtk_global_menu_enabled, DBusMenuFunctions.Init, DBusMenuBar.Create,
      nsWindow.SetDBusMenuBar, nativeMenuServiceContractID, h1, h2, h3, h4, h5]

/-- In a list made of a stretch without flagged entries, then a marker, then
anything, every flagged entry has the marker somewhere before it. -/
theorem marker_before_flagged {α : Type} (isMarker isFlagged : α → Bool) (a b : List α) (s : α)
    (hs : isMarker s = true) (hsf : isFlagged s = false)
    (ha : ∀ x ∈ a, isFlagged x = false) (pre post : List α) (ev : α)
    (hsplit : a ++ s :: b = pre ++ ev :: post) (hev : isFlagged ev = true) :
    ∃ x ∈ pre, isMarker x = true := by
  rcases List.append_eq_append_iff.mp hsplit with ⟨c, hpre, hrest⟩ | ⟨c, ha2, hrest⟩
  · cases c with
    | nil =>
      simp at hrest
      rw [← hrest.1, hsf] at hev
      exact absurd hev (by simp)
    | cons d c =>
      simp at hrest
      refine ⟨s, ?_, hs⟩
      rw [hpre, hrest.1]
      simp
  · cases c with
    | nil =>
      simp at hrest
      rw [hrest.1, hsf] at hev
      exact absurd hev (by simp)
    | cons d c =>
      simp at hrest
      have hmem : ev ∈ a := by
        rw [ha2, hrest.1]
        simp
      rw [ha ev hmem] at hev
      exact absurd hev (by simp)

/-! ## The claims -/

/-- C1: on the main thread, when the lookup of the native menu service yields
nothing, `CreateNativeMenuBar` returns normally having made only the thread
query and the lookup: the service's `CreateNativeMenuBar` is not invoked, the
pref is not read, `DBusMenuFunctions::Init` is not invoked, no `DBusMenuBar`
is created and `SetDBusMenuBar` is not called. This holds for every parent,
every element (null or not), every pref value, every answer `Init` would
give, and with or without DBus support compiled in. -/
theorem C1_no_service_is_silent_noop (env : Env) (aParent : Ptr nsIWidget)
    (aMenuBarElement : Ptr Element)
    (hMain : env.NS_IsMainThread = true)
    (hNoService : env.do_GetService nativeMenuServiceContractID = none) :
    ((NativeMenuSupport.CreateNativeMenuBar aParent aMenuBarElement).run env).outcome
        = Outcome.returned () ∧
    ((NativeMenuSupport.CreateNativeMenuBar aParent aMenuBarElement).run env).trace
        = [Event.NS_IsMainThread true,
           Event.do_GetService nativeMenuServiceContractID none] ∧
    ((NativeMenuSupport.CreateNativeMenuBar aParent aMenuBarElement).run env).trace.filter
        Event.isServiceCall = [] ∧
    ((NativeMenuSupport.CreateNativeMenuBar aParent aMenuBarElement).run env).trace.filter
        Event.isPrefRead = [] ∧
    ((NativeMenuSupport.CreateNativeMenuBar aParent aMenuBarElement).run env).trace.filter
        Event.isDBusInit = [] ∧
    ((NativeMenuSupport.CreateNativeMenuBar aParent aMenuBarElement).run env).trace.filter
        Event.isDBusMenuBarCreate = [] ∧
    ((NativeMenuSupport.CreateNativeMenuBar aParent aMenuBarElement).run env).trace.filter
        Event.isSetDBusMenuBar = [] := by
  rw [CreateNativeMenuBar_run]
  simp [hMain, hNoService, Event.isServiceCall, Event.isPrefRead, Event.isDBusInit,
    Event.isDBusMenuBarCreate, Event.isSetDBusMenuBar]

/-- C1 at a concrete input: no service registered, a parent and a non-null
element. -/
theorem C1_no_service_is_silent_noop_witness :
    sampleEnvNoService.NS_IsMainThread = true ∧
    sampleEnvNoService.do_GetService nativeMenuServiceContractID = none ∧
    ((NativeMenuSupport.CreateNativeMenuBar sampleParent sampleMenuBar).run
        sampleEnvNoService).outcome = Outcome.returned () ∧
    ((NativeMenuSupport.CreateNativeMenuBar sampleParent sampleMenuBar).run
        sampleEnvNoService).trace
        = [Event.NS_IsMainThread true,
           Event.do_GetService nativeMenuServiceContractID none] :=
  ⟨rfl, rfl,
    (C1_no_service_is_silent_noop sampleEnvNoService sampleParent sampleMenuBar rfl rfl).1,
    (C1_no_service_is_silent_noop sampleEnvNoService sampleParent sampleMenuBar rfl rfl).2.1⟩

/-- C3: on the main thread with the native menu service available,
`CreateNativeMenuBar` invokes the service's `CreateNativeMenuBar` exactly
once, on the service the lookup returned, with the caller's parent as first
argument and the caller's element as second argument, both unchanged. -/
theorem C3_forwards_to_service (env : Env) (aParent : Ptr nsIWidget)
    (aMenuBarElement : Ptr Element) (nms : nsINativeMenuService)
    (hMain : env.NS_IsMainThread = true)
    (hService : env.do_GetService nativeMenuServiceContractID = some nms) :
    ((NativeMenuSupport.CreateNativeMenuBar aParent aMenuBarElement).run env).trace.filter
        Event.isServiceCall
      = [Event.nms_CreateNativeMenuBar nms aParent aMenuBarElement] := by
  rw [CreateNativeMenuBar_run]
  simp only [hMain, hService, if_true]
  cases aParent <;> split_ifs <;>
    simp [List.filter, Event.isServiceCall]

/-- C3 at a concrete input. -/
theorem C3_forwards_to_service_witness :
    sampleEnv.NS_IsMainThread = true ∧
    sampleEnv.do_GetService nativeMenuServiceContractID = some sampleService ∧
    ((NativeMenuSupport.CreateNativeMenuBar sampleParent sampleMenuBar).run sampleEnv).trace.filter
        Event.isServiceCall
      = [Event.nms_CreateNativeMenuBar sampleService sampleParent sampleMenuBar] :=
  ⟨rfl, rfl, C3_forwards_to_service sampleEnv sampleParent sampleMenuBar sampleService rfl rfl⟩

/-- C4: `ShouldUseNativeContextMenus` makes exactly one call, to
`NativeMenuGtk::CanUse()`, and returns its answer; it returns true exactly
when `CanUse` answers true. It looks up no service, reads no pref and makes no
call into the DBus exporter, and two environments that agree on `CanUse` give
the same run. -/
theorem C4_should_use_forwards_CanUse (env : Env) :
    NativeMenuSupport.ShouldUseNativeContextMenus.run env
      = ⟨[Event.NativeMenuGtk_CanUse env.NativeMenuGtk_CanUse],
          Outcome.returned env.NativeMenuGtk_CanUse⟩ ∧
    ((NativeMenuSupport.ShouldUseNativeContextMenus.run env).outcome = Outcome.returned true
      ↔ env.NativeMenuGtk_CanUse = true) ∧
    (NativeMenuSupport.ShouldUseNativeContextMenus.run env).trace.filter
      (fun ev => ev.isServiceLookup || ev.isServiceCall || ev.isPrefRead || ev.isDBus) = [] ∧
    ∀ other : Env, other.NativeMenuGtk_CanUse = env.NativeMenuGtk_CanUse →
      NativeMenuSupport.ShouldUseNativeContextMenus.run other
        = NativeMenuSupport.ShouldUseNativeContextMenus.run env := by
  refine ⟨rfl, ?_, ?_, ?_⟩
  · simp [NativeMenuSupport.ShouldUseNativeContextMenus, NativeMenuGtk.CanUse, Exec.run]
  · simp [NativeMenuSupport.ShouldUseNativeContextMenus, NativeMenuGtk.CanUse, Exec.run,
      Event.isServiceLookup, Event.isServiceCall, Event.isPrefRead, Event.isDBus,
      Event.isDBusInit, Event.isDBusMenuBarCreate, Event.isSetDBusMenuBar]
  · intro other hSame
    simp [NativeMenuSupport.ShouldUseNativeContextMenus, NativeMenuGtk.CanUse, Exec.run, hSame]

/-- C5: for every popup element and in every environment,
`CreateNativeContextMenu` constructs exactly one `NativeMenuGtk`, from the
popup element it was given, and returns a non-null reference to that object;
the run is the same whatever the service lookup, the pref, DBus
initialisation or `CanUse` would answer. -/
theorem C5_context_menu_forwards_to_gtk (env : Env) (aPopup : Ptr Element) :
    (NativeMenuSupport.CreateNativeContextMenu aPopup).run env
      = ⟨[Event.NativeMenuGtk_new aPopup],
          Outcome.returned (some (NativeMenu.NativeMenuGtk aPopup))⟩ ∧
    ((NativeMenuSupport.CreateNativeContextMenu aPopup).run env).outcome
      ≠ Outcome.returned none ∧
    ∀ other : Env,
      (NativeMenuSupport.CreateNativeContextMenu aPopup).run other
        = (NativeMenuSupport.CreateNativeContextMenu aPopup).run env := by
  refine ⟨rfl, ?_, fun _ => rfl⟩
  simp [NativeMenuSupport.CreateNativeContextMenu, MakeAndAddRef_NativeMenuGtk, Exec.run]

/-- C6: in a build with DBus support, for a main-thread call on a parent
window with the native menu service available, `SetDBusMenuBar` is called if
and only if the element is non-null, the pref
`widget.gtk.global-menu.enabled` is true and `DBusMenuFunctions::Init()`
returns true. When the three hold, there is exactly one `DBusMenuBar::Create`
call, on the element passed in, and exactly one `SetDBusMenuBar` call, on the
parent window passed in, whose argument is the result of that `Create`. When
one of them fails, neither call is made. The parent ranges over windows: the
pointer passed is `some window`. -/
theorem C6_dbus_export_iff_three_conditions (env : Env) (window : nsIWidget)
    (aMenuBarElement : Ptr Element) (nms : nsINativeMenuService)
    (hDBus : env.MOZ_ENABLE_DBUS = true)
    (hMain : env.NS_IsMainThread = true)
    (hService : env.do_GetService nativeMenuServiceContractID = some nms) :
    (((NativeMenuSupport.CreateNativeMenuBar (some window) aMenuBarElement).run env).trace.filter
        Event.isSetDBusMenuBar ≠ []
      ↔ (aMenuBarElement ≠ none ∧ env.widget_gtk_global_menu_enabled = true ∧
          env.DBusMenuFunctions_Init = true)) ∧
    ((aMenuBarElement ≠ none ∧ env.widget_gtk_global_menu_enabled = true ∧
          env.DBusMenuFunctions_Init = true) →
      ((NativeMenuSupport.CreateNativeMenuBar (some window) aMenuBarElement).run env).trace.filter
          Event.isSetDBusMenuBar
        = [Event.SetDBusMenuBar window (env.DBusMenuBar_Create aMenuBarElement)] ∧
      ((NativeMenuSupport.CreateNativeMenuBar (some window) aMenuBarElement).run env).trace.filter
          Event.isDBusMenuBarCreate
        = [Event.DBusMenuBar_Create aMenuBarElement (env.DBusMenuBar_Create aMenuBarElement)]) ∧
    (¬ (aMenuBarElement ≠ none ∧ env.widget_gtk_global_menu_enabled = true ∧
          env.DBusMenuFunctions_Init = true) →
      ((NativeMenuSupport.CreateNativeMenuBar (some window) aMenuBarElement).run env).trace.filter
          Event.isSetDBusMenuBar = [] ∧
      ((NativeMenuSupport.CreateNativeMenuBar (some window) aMenuBarElement).run env).trace.filter
          Event.isDBusMenuBarCreate = []) := by
  rw [CreateNativeMenuBar_run]
  cases aMenuBarElement <;> cases hPref : env.widget_gtk_global_menu_enabled <;>
    cases hInit : env.DBusMenuFunctions_Init <;>
    simp [hDBus, hMain, hService, List.filter, Event.isSetDBusMenuBar, Event.isDBusMenuBarCreate]

/-- C6 at a concrete input where the three conditions hold. -/
theorem C6_dbus_export_iff_three_conditions_witness :
    sampleEnv.MOZ_ENABLE_DBUS = true ∧
    sampleEnv.NS_IsMainThread = true ∧
    sampleEnv.do_GetService nativeMenuServiceContractID = some sampleService ∧
    (sampleMenuBar ≠ none ∧ sampleEnv.widget_gtk_global_menu_enabled = true ∧
      sampleEnv.DBusMenuFunctions_Init = true) ∧
    ((NativeMenuSupport.CreateNativeMenuBar (some sampleWindow) sampleMenuBar).run
        sampleEnv).trace.filter Event.isSetDBusMenuBar
      = [Event.SetDBusMenuBar sampleWindow (sampleEnv.DBusMenuBar_Create sampleMenuBar)] ∧
    ((NativeMenuSupport.CreateNativeMenuBar (some sampleWindow) sampleMenuBar).run
        sampleEnv).trace.filter Event.isDBusMenuBarCreate
      = [Event.DBusMenuBar_Create sampleMenuBar (sampleEnv.DBusMenuBar_Create sampleMenuBar)] :=
  ⟨rfl, rfl, rfl, ⟨by decide, rfl, rfl⟩,
    (C6_dbus_export_iff_three_conditions sampleEnv sampleWindow sampleMenuBar sampleService
      rfl rfl rfl).2.1 ⟨by decide, rfl, rfl⟩⟩

/-- C7: in a DBus build, on the main thread, with a parent window, the
service available, a non-null element, the pref on and DBus initialisation
succeeding, the run is the thread query, the service lookup, the service's
`CreateNativeMenuBar`, the pref read, `DBusMenuFunctions::Init`,
`DBusMenuBar::Create` and `SetDBusMenuBar` on that window, in this order, then
a normal return: both delegations happen and the service call comes first. In
every run whatsoever, for every parent pointer, each call into the DBus
exporter (`Init`, `Create`, `SetDBusMenuBar`) has a call of the service's
`CreateNativeMenuBar` before it. -/
theorem C7_service_call_precedes_dbus_export (env : Env) (aParent : Ptr nsIWidget)
    (aMenuBarElement : Ptr Element) :
    (∀ (nms : nsINativeMenuService) (window : nsIWidget),
      aParent = some window →
      env.MOZ_ENABLE_DBUS = true → env.NS_IsMainThread = true →
      env.do_GetService nativeMenuServiceContractID = some nms →
      aMenuBarElement ≠ none → env.widget_gtk_global_menu_enabled = true →
      env.DBusMenuFunctions_Init = true →
      (NativeMenuSupport.CreateNativeMenuBar aParent aMenuBarElement).run env
        = ⟨[Event.NS_IsMainThread true,
            Event.do_GetService nativeMenuServiceContractID (some nms),
            Event.nms_CreateNativeMenuBar nms aParent aMenuBarElement,
            Event.widget_gtk_global_menu_enabled true,
            Event.DBusMenuFunctions_Init true,
            Event.DBusMenuBar_Create aMenuBarElement (env.DBusMenuBar_Create aMenuBarElement),
            Event.SetDBusMenuBar window (env.DBusMenuBar_Create aMenuBarElement)],
           Outcome.returned ()⟩) ∧
    (∀ (pre post : List Event) (ev : Event),
      ((NativeMenuSupport.CreateNativeMenuBar aParent aMenuBarElement).run env).trace
        = pre ++ ev :: post →
      ev.isDBus = true →
      ∃ earlier ∈ pre, earlier.isServiceCall = true) := by
  rw [CreateNativeMenuBar_run]
  constructor
  · intro nms window hWindow hDBus hMain hService hElem hPref hInit
    subst hWindow
    cases aMenuBarElement with
    | none => exact absurd rfl hElem
    | some e => simp [hDBus, hMain, hService, hPref, hInit]
  · intro pre post ev hsplit hev
    cases hMain : env.NS_IsMainThread with
    | false =>
      simp only [hMain, Bool.false_eq_true, if_false] at hsplit
      have hmem : ev ∈ [Event.NS_IsMainThread false] := by
        rw [hsplit]
        simp
      simp at hmem
      rw [hmem] at hev
      simp [Event.isDBus, Event.isDBusInit, Event.isDBusMenuBarCreate,
        Event.isSetDBusMenuBar] at hev
    | true =>
      cases hService : env.do_GetService nativeMenuServiceContractID with
      | none =>
        simp only [hMain, hService, if_true] at hsplit
        have hmem : ev ∈ [Event.NS_IsMainThread true,
            Event.do_GetService nativeMenuServiceContractID none] := by
          rw [hsplit]
          simp
        simp at hmem
        rcases hmem with hmem | hmem <;> rw [hmem] at hev <;>
          simp [Event.isDBus, Event.isDBusInit, Event.isDBusMenuBarCreate,
            Event.isSetDBusMenuBar] at hev
      | some nms =>
        simp only [hMain, hService, if_true] at hsplit
        have hprefix : ∀ x ∈ [Event.NS_IsMainThread true,
            Event.do_GetService nativeMenuServiceContractID (some nms)],
            Event.isDBus x = false := by
          intro x hx
          simp at hx
          rcases hx with hx | hx <;> rw [hx] <;> rfl
        cases aParent <;> split_ifs at hsplit <;>
          exact marker_before_flagged Event.isServiceCall Event.isDBus
            [Event.NS_IsMainThread true,
              Event.do_GetService nativeMenuServiceContractID (some nms)]
            _ (Event.nms_CreateNativeMenuBar nms _ aMenuBarElement) rfl rfl hprefix
            pre post ev hsplit hev

/-- C7 at a concrete input: the full run, with the service call third and the
DBus calls after it. -/
theorem C7_service_call_precedes_dbus_export_witness :
    sampleParent = some sampleWindow ∧
    sampleEnv.MOZ_ENABLE_DBUS = true ∧ sampleEnv.NS_IsMainThread = true ∧
    sampleEnv.do_GetService nativeMenuServiceContractID = some sampleService ∧
    sampleMenuBar ≠ none ∧ sampleEnv.widget_gtk_global_menu_enabled = true ∧
    sampleEnv.DBusMenuFunctions_Init = true ∧
    (NativeMenuSupport.CreateNativeMenuBar sampleParent sampleMenuBar).run sampleEnv
      = ⟨[Event.NS_IsMainThread true,
          Event.do_GetService nativeMenuServiceContractID (some sampleService),
          Event.nms_CreateNativeMenuBar sampleService sampleParent sampleMenuBar,
          Event.widget_gtk_global_menu_enabled true,
          Event.DBusMenuFunctions_Init true,
          Event.DBusMenuBar_Create sampleMenuBar (sampleEnv.DBusMenuBar_Create sampleMenuBar),
          Event.SetDBusMenuBar sampleWindow (sampleEnv.DBusMenuBar_Create sampleMenuBar)],
         Outcome.returned ()⟩ :=
  ⟨rfl, rfl, rfl, rfl, by decide, rfl, rfl,
    (C7_service_call_precedes_dbus_export sampleEnv sampleParent sampleMenuBar).1 sampleService
      sampleWindow rfl rfl rfl rfl (by decide) rfl rfl⟩

/-- C8 as stated fails in a build without `MOZ_ENABLE_DBUS`: on the main
thread, with the service available, a non-null element and the pref on,
`DBusMenuFunctions::Init` is not invoked, so "invoked if and only if the
element is non-null and the pref is enabled" does not hold there. -/
theorem C8_counterexample_build_without_dbus :
    sampleEnvNoDBus.NS_IsMainThread = true ∧
    sampleEnvNoDBus.do_GetService nativeMenuServiceContractID = some sampleService ∧
    (sampleMenuBar ≠ none ∧ sampleEnvNoDBus.widget_gtk_global_menu_enabled = true) ∧
    ((NativeMenuSupport.CreateNativeMenuBar sampleParent sampleMenuBar).run
        sampleEnvNoDBus).trace.filter Event.isDBusInit = [] ∧
    ¬ (((NativeMenuSupport.CreateNativeMenuBar sampleParent sampleMenuBar).run
          sampleEnvNoDBus).trace.filter Event.isDBusInit ≠ []
        ↔ (sampleMenuBar ≠ none ∧ sampleEnvNoDBus.widget_gtk_global_menu_enabled = true)) := by
  decide

/-- C8, amended: for a main-thread call with the service available, in a
build with DBus support `DBusMenuFunctions::Init()` is invoked if and only if
the element is non-null and the global-menu pref is enabled, and then exactly
once; in a build without DBus support the pref is not read and `Init` is not
invoked. In either build, when the element is null the pref is not read, and
when the element is null or the pref is disabled `Init` is not called. -/
theorem C8_init_guarded_by_short_circuit (env : Env) (aParent : Ptr nsIWidget)
    (aMenuBarElement : Ptr Element) (nms : nsINativeMenuService)
    (hMain : env.NS_IsMainThread = true)
    (hService : env.do_GetService nativeMenuServiceContractID = some nms) :
    (env.MOZ_ENABLE_DBUS = true →
      (((NativeMenuSupport.CreateNativeMenuBar aParent aMenuBarElement).run env).trace.filter
          Event.isDBusInit ≠ []
        ↔ (aMenuBarElement ≠ none ∧ env.widget_gtk_global_menu_enabled = true))) ∧
    (env.MOZ_ENABLE_DBUS = true → aMenuBarElement ≠ none →
      env.widget_gtk_global_menu_enabled = true →
      ((NativeMenuSupport.CreateNativeMenuBar aParent aMenuBarElement).run env).trace.filter
          Event.isDBusInit
        = [Event.DBusMenuFunctions_Init env.DBusMenuFunctions_Init]) ∧
    (env.MOZ_ENABLE_DBUS = false →
      ((NativeMenuSupport.CreateNativeMenuBar aParent aMenuBarElement).run env).trace.filter
          Event.isPrefRead = [] ∧
      ((NativeMenuSupport.CreateNativeMenuBar aParent aMenuBarElement).run env).trace.filter
          Event.isDBusInit = []) ∧
    (aMenuBarElement = none →
      ((NativeMenuSupport.CreateNativeMenuBar aParent aMenuBarElement).run env).trace.filter
          Event.isPrefRead = []) ∧
    (aMenuBarElement = none ∨ env.widget_gtk_global_menu_enabled = false →
      ((NativeMenuSupport.CreateNativeMenuBar aParent aMenuBarElement).run env).trace.filter
          Event.isDBusInit = []) := by
  rw [CreateNativeMenuBar_run]
  cases aParent <;> cases aMenuBarElement <;> cases hDBus : env.MOZ_ENABLE_DBUS <;>
    cases hPref : env.widget_gtk_global_menu_enabled <;>
    cases hInit : env.DBusMenuFunctions_Init <;>
    simp [hMain, hService, List.filter, Event.isDBusInit, Event.isPrefRead]

/-- C8, amended, at concrete inputs: with DBus support, a non-null element
and the pref on, `Init` is invoked once; with the pref off it is not. -/
theorem C8_init_guarded_by_short_circuit_witness :
    sampleEnv.NS_IsMainThread = true ∧
    sampleEnv.do_GetService nativeMenuServiceContractID = some sampleService ∧
    sampleEnv.MOZ_ENABLE_DBUS = true ∧ sampleMenuBar ≠ none ∧
    sampleEnv.widget_gtk_global_menu_enabled = true ∧
    ((NativeMenuSupport.CreateNativeMenuBar sampleParent sampleMenuBar).run sampleEnv).trace.filter
        Event.isDBusInit
      = [Event.DBusMenuFunctions_Init sampleEnv.DBusMenuFunctions_Init] ∧
    sampleEnvPrefOff.NS_IsMainThread = true ∧
    sampleEnvPrefOff.do_GetService nativeMenuServiceContractID = some sampleService ∧
    (sampleMenuBar = none ∨ sampleEnvPrefOff.widget_gtk_global_menu_enabled = false) ∧
    ((NativeMenuSupport.CreateNativeMenuBar sampleParent sampleMenuBar).run
        sampleEnvPrefOff).trace.filter Event.isDBusInit = [] :=
  ⟨rfl, rfl, rfl, by decide, rfl,
    (C8_init_guarded_by_short_circuit sampleEnv sampleParent sampleMenuBar sampleService
      rfl rfl).2.1 rfl (by decide) rfl,
    rfl, rfl, Or.inr rfl,
    (C8_init_guarded_by_short_circuit sampleEnvPrefOff sampleParent sampleMenuBar sampleService
      rfl rfl).2.2.2.2 (Or.inr rfl)⟩

/-- C9: on the main thread with the service available, a call with a null
element is the thread query, the service lookup and one call of the service's
`CreateNativeMenuBar` with the parent and the null element, then a normal
return; the pref is not read and no call into the DBus exporter is made. The
null check sits after the service call: for any element, null or not, the run
starts with the same three calls, the element passed through as it is. -/
theorem C9_null_element_still_forwarded (env : Env) (aParent : Ptr nsIWidget)
    (nms : nsINativeMenuService)
    (hMain : env.NS_IsMainThread = true)
    (hService : env.do_GetService nativeMenuServiceContractID = some nms) :
    (NativeMenuSupport.CreateNativeMenuBar aParent none).run env
      = ⟨[Event.NS_IsMainThread true,
          Event.do_GetService nativeMenuServiceContractID (some nms),
          Event.nms_CreateNativeMenuBar nms aParent none],
         Outcome.returned ()⟩ ∧
    ((NativeMenuSupport.CreateNativeMenuBar aParent none).run env).trace.filter
        Event.isServiceCall
      = [Event.nms_CreateNativeMenuBar nms aParent none] ∧
    ((NativeMenuSupport.CreateNativeMenuBar aParent none).run env).trace.filter
        (fun ev => ev.isPrefRead || ev.isDBus) = [] ∧
    ∀ aMenuBarElement : Ptr Element,
      ((NativeMenuSupport.CreateNativeMenuBar aParent aMenuBarElement).run env).trace.take 3
        = [Event.NS_IsMainThread true,
           Event.do_GetService nativeMenuServiceContractID (some nms),
           Event.nms_CreateNativeMenuBar nms aParent aMenuBarElement] := by
  refine ⟨?_, ?_, ?_, ?_⟩
  · rw [CreateNativeMenuBar_run]
    simp [hMain, hService]
  · rw [CreateNativeMenuBar_run]
    simp [hMain, hService, List.filter, Event.isServiceCall]
  · rw [CreateNativeMenuBar_run]
    simp [hMain, hService, List.filter, Event.isPrefRead, Event.isDBus, Event.isDBusInit,
      Event.isDBusMenuBarCreate, Event.isSetDBusMenuBar]
  · intro aMenuBarElement
    rw [CreateNativeMenuBar_run]
    simp only [hMain, hService, if_true]
    cases aParent <;> split_ifs <;> rfl

/-- C9 at a concrete input. -/
theorem C9_null_element_still_forwarded_witness :
    sampleEnv.NS_IsMainThread = true ∧
    sampleEnv.do_GetService nativeMenuServiceContractID = some sampleService ∧
    (NativeMenuSupport.CreateNativeMenuBar sampleParent none).run sampleEnv
      = ⟨[Event.NS_IsMainThread true,
          Event.do_GetService nativeMenuServiceContractID (some sampleService),
          Event.nms_CreateNativeMenuBar sampleService sampleParent none],
         Outcome.returned ()⟩ :=
  ⟨rfl, rfl, (C9_null_element_still_forwarded sampleEnv sampleParent sampleService rfl rfl).1⟩

end mozilla.widget
